import Mathlib

/-!
Shallow embedding of the two core components of the portion-pal repository:

* the nutrient value normalizer of `src/lib/imageCompression.ts`
  (`parseNutritionNumber`, `normalizeNutritionData`, `extractNutritionFromText`,
  `isNutritionEmpty`, `mergeNutrition`), and
* the retry executor of `src/lib/performanceMonitor.ts`
  (`calculateDelay`, `defaultIsRetryableResponse`, `retry`).

JavaScript numbers are modelled as exact rationals (`Rat`); the inputs the
normalizer receives are small decimal literals, for which binary float
rounding does not change any of the results considered here.  The JavaScript
regular expressions used by the source are translated into explicit
character-list scanners implementing the leftmost-match-with-backtracking
semantics of the concrete patterns; each scanner is annotated with the
pattern it implements.  The scanners return the captured digit substrings,
and the `Number` conversion the source applies to a captured group is
modelled by `decValue` (and a sign) at exactly the places the source
converts. -/

/-- A JavaScript value as far as the normalizer inspects it: a finite number,
a non-finite number (NaN or an infinity, which fail the `isFinite` test in the
source), a string, `null`, or `undefined`. -/
inductive JSValue where
  | num (q : Rat)
  | nan
  | str (s : String)
  | null
  | undef
deriving DecidableEq

/-- JavaScript `Math.round`: nearest integer, ties toward positive infinity;
ECMAScript defines it on the exact value as `⌊q + 1/2⌋`. -/
def jsRound (q : Rat) : Int := ⌊q + 1 / 2⌋

/-- Numeric value of a list of decimal digit characters. -/
def digitsToNat (ds : List Char) : Nat :=
  ds.foldl (fun n c => 10 * n + (c.toNat - 48)) 0

/-- JavaScript `Number` conversion of a captured decimal literal with integer
digits `intPart` and fractional digits `fracPart`. -/
def decValue (intPart fracPart : List Char) : Rat :=
  (digitsToNat intPart : Rat) + (digitsToNat fracPart : Rat) / (10 : Rat) ^ fracPart.length

/-- Split off the maximal leading run of decimal digits (the greedy `[0-9]*`). -/
def digitRun : List Char → List Char × List Char
  | [] => ([], [])
  | c :: cs =>
    if c.isDigit then
      let p := digitRun cs
      (c :: p.1, p.2)
    else ([], c :: cs)

/-- Whitespace as matched by the regex class `\s` (the inputs considered use
only ASCII whitespace, which `Char.isWhitespace` covers). -/
def jsIsSpace (c : Char) : Bool := c.isWhitespace

/-- Split off the maximal leading whitespace run (the greedy `\s*`). -/
def splitWs : List Char → List Char × List Char
  | [] => ([], [])
  | c :: cs =>
    if jsIsSpace c then
      let p := splitWs cs
      (c :: p.1, p.2)
    else ([], c :: cs)

/-- Match the separator alternation `(?:-|–|—|to)` of the range patterns at the
head of the input, case-insensitively for `to` (the source regexes carry the
`i` flag); returns the consumed characters and the rest. -/
def matchSepTok : List Char → Option (List Char × List Char)
  | '-' :: r => some (['-'], r)
  | '–' :: r => some (['–'], r)
  | '—' :: r => some (['—'], r)
  | c1 :: c2 :: r =>
    if c1.toLower = 't' ∧ c2.toLower = 'o' then some ([c1, c2], r) else none
  | _ => none

/-- Match `[0-9]*\.?[0-9]+` at the head of the input, returning the captured
parts `(intDigits, fracDigits)`.  Greedy digits, then the optional dot; the
backtracking alternatives of the regex collapse to: a fractional part is taken
exactly when a dot followed by at least one digit follows the digit run. -/
def matchUnsignedNum (cs : List Char) : Option (List Char × List Char) :=
  let p := digitRun cs
  match p.2 with
  | '.' :: r2 =>
    let f := digitRun r2
    if f.1.isEmpty then
      if p.1.isEmpty then none else some (p.1, [])
    else some (p.1, f.1)
  | _ => if p.1.isEmpty then none else some (p.1, [])

/-- Leftmost match of `/[-+]?[0-9]*\.?[0-9]+/` over the string, as the fallback
branch of `parseNutritionNumber` uses; returns the sign (`true` when the match
starts with a minus) and the captured digit parts.  A sign character
participates only when a numeric tail follows it, which is also the only way
the regex can match at a sign character. -/
def findFirstNumber : List Char → Option (Bool × List Char × List Char)
  | [] => none
  | c :: cs =>
    if c = '-' ∨ c = '+' then
      match matchUnsignedNum cs with
      | some p => some (c = '-', p)
      | none => findFirstNumber cs
    else
      match matchUnsignedNum (c :: cs) with
      | some p => some (false, p)
      | none => findFirstNumber cs

/-- Match the tail `\s*(?:-|–|—|to)\s*([0-9]+(?:\.[0-9]+)?)` of the range
regex; returns the second captured group's parts, or `none` when the tail
does not match here.  The second group takes its greedy fractional part when
present, since nothing follows it in the pattern. -/
def matchRangeTail (rest : List Char) : Option (List Char × List Char) :=
  let w1 := splitWs rest
  match matchSepTok w1.2 with
  | none => none
  | some sp =>
    let w2 := splitWs sp.2
    let d := digitRun w2.2
    if d.1.isEmpty then none
    else
      match d.2 with
      | '.' :: r3 =>
        let f := digitRun r3
        if f.1.isEmpty then some (d.1, [])
        else some (d.1, f.1)
      | _ => some (d.1, [])

/-- Match the full range pattern
`([0-9]+(?:\.[0-9]+)?)\s*(?:-|–|—|to)\s*([0-9]+(?:\.[0-9]+)?)` at this start
position, returning both captured groups' digit parts.  The first group is
matched greedily with its optional fractional part; if the tail then fails,
the regex backtracks to the group without the fractional part before giving up
at this position. -/
def matchRangeAt (cs : List Char) : Option ((List Char × List Char) × (List Char × List Char)) :=
  let d := digitRun cs
  if d.1.isEmpty then none
  else
    match d.2 with
    | '.' :: r2 =>
      let f := digitRun r2
      if f.1.isEmpty then (matchRangeTail ('.' :: r2)).map (fun b => ((d.1, []), b))
      else
        match matchRangeTail f.2 with
        | some b => some ((d.1, f.1), b)
        | none => (matchRangeTail ('.' :: r2)).map (fun b => ((d.1, []), b))
    | _ => (matchRangeTail d.2).map (fun b => ((d.1, []), b))

/-- Leftmost match of the range regex over the whole string, scanning start
positions left to right as the JavaScript engine does. -/
def findRange : List Char → Option ((List Char × List Char) × (List Char × List Char))
  | [] => none
  | c :: cs =>
    match matchRangeAt (c :: cs) with
    | some ab => some ab
    | none => findRange cs

/-- The character map performed by `value.replace(/,/g, '.')`: a global
single-character replacement, hence a character-wise map. -/
def commaToDot (c : Char) : Char := if c = ',' then '.' else c

/-- JavaScript `String.prototype.trim`: drop whitespace from both ends. -/
def trimChars (l : List Char) : List Char :=
  ((l.dropWhile jsIsSpace).reverse.dropWhile jsIsSpace).reverse

/-- Function `parseNutritionNumber` of `src/lib/imageCompression.ts`.  `null` and
`undefined` give 0; a finite number gives `max(0, Math.round(value))`; NaN
falls through every branch and gives 0.  A string is comma-normalized and
trimmed, then the range regex is tried (clamped rounded midpoint of the two
`Number`-converted groups), then the first-number regex (clamped rounded
`Number` of the match), else 0.  The source's `isNaN` guard on the range
endpoints is omitted: the captured groups are digit strings, whose `Number`
conversion is never NaN. -/
def parseNutritionNumber : JSValue → Int
  | JSValue.null => 0
  | JSValue.undef => 0
  | JSValue.nan => 0
  | JSValue.num q => max 0 (jsRound q)
  | JSValue.str v =>
    let s := trimChars (v.data.map commaToDot)
    match findRange s with
    | some g => max 0 (jsRound ((decValue g.1.1 g.1.2 + decValue g.2.1 g.2.2) / 2))
    | none =>
      match findFirstNumber s with
      | some m => max 0 (jsRound ((if m.1 then (-1 : Rat) else 1) * decValue m.2.1 m.2.2))
      | none => 0

/-- The canonical nutrition record `NormalizedNutrition` of the source.  The
`fiber` field is optional in the TypeScript interface; an absent field is
modelled as `none`. -/
structure NormalizedNutrition where
  calories : Int
  protein : Int
  carbs : Int
  fat : Int
  fiber : Option Int := none
deriving DecidableEq

/-- The loosely-typed record `normalizeNutritionData` receives: every alias
key the source probes, each holding a JavaScript value, with `undefined` for
an absent property. -/
structure RawNutrition where
  calories : JSValue := JSValue.undef
  kalori : JSValue := JSValue.undef
  total_calories : JSValue := JSValue.undef
  estimasi_kalori : JSValue := JSValue.undef
  protein : JSValue := JSValue.undef
  protein_g : JSValue := JSValue.undef
  protein_grams : JSValue := JSValue.undef
  protein_gram : JSValue := JSValue.undef
  carbs : JSValue := JSValue.undef
  karbohidrat : JSValue := JSValue.undef
  karbohidrat_g : JSValue := JSValue.undef
  carbs_grams : JSValue := JSValue.undef
  carbs_g : JSValue := JSValue.undef
  fat : JSValue := JSValue.undef
  lemak : JSValue := JSValue.undef
  lemak_g : JSValue := JSValue.undef
  fat_grams : JSValue := JSValue.undef
  fat_g : JSValue := JSValue.undef
  fiber : JSValue := JSValue.undef
  serat : JSValue := JSValue.undef
  fiber_g : JSValue := JSValue.undef
deriving DecidableEq

/-- The JavaScript nullish-coalescing operator `a ?? b`: `b` exactly when `a`
is `null` or `undefined`. -/
def jsNullish : JSValue → JSValue → JSValue
  | JSValue.null, b => b
  | JSValue.undef, b => b
  | a, _ => a

/-- Whether a value is nullish (`null` or `undefined`). -/
def isNullish : JSValue → Bool
  | JSValue.null => true
  | JSValue.undef => true
  | _ => false

/-- Function `normalizeNutritionData` of `src/lib/imageCompression.ts`: each canonical
field takes the nullish-coalescing chain over its alias keys, passed through
`parseNutritionNumber`.  The source always writes the `fiber` field, so the
result carries `some`. -/
def normalizeNutritionData (raw : RawNutrition) : NormalizedNutrition :=
  { calories := parseNutritionNumber
      (jsNullish raw.calories (jsNullish raw.kalori (jsNullish raw.total_calories raw.estimasi_kalori)))
    protein := parseNutritionNumber
      (jsNullish raw.protein (jsNullish raw.protein_g (jsNullish raw.protein_grams raw.protein_gram)))
    carbs := parseNutritionNumber
      (jsNullish raw.carbs (jsNullish raw.karbohidrat
        (jsNullish raw.karbohidrat_g (jsNullish raw.carbs_grams raw.carbs_g))))
    fat := parseNutritionNumber
      (jsNullish raw.fat (jsNullish raw.lemak
        (jsNullish raw.lemak_g (jsNullish raw.fat_grams raw.fat_g))))
    fiber := some (parseNutritionNumber
      (jsNullish raw.fiber (jsNullish raw.serat raw.fiber_g))) }

/-- First alias value that is present (not nullish), `undefined` when none is:
the specification's description of the alias selection, to be compared with
the nullish-coalescing chains of the source. -/
def firstPresentAlias : List JSValue → JSValue
  | [] => JSValue.undef
  | v :: vs => if isNullish v then firstPresentAlias vs else v

/-- Match a literal keyword at the head of the input, case-insensitively (the
`i` flag); returns the rest on success. -/
def matchKeyAt : List Char → List Char → Option (List Char)
  | [], rest => some rest
  | _ :: _, [] => none
  | k :: ks, c :: cs => if c.toLower = k.toLower then matchKeyAt ks cs else none

/-- Match `[0-9]{1,4}(?:[.,][0-9]+)?` at the head of the input, returning the
matched characters and the rest.  The greedy quantifier takes at most four
digits; a fractional part (dot or comma, then digits) is taken only when the
digit run has ended within four digits.  Backtracking alternatives of this
piece never rescue a later failure in the patterns below, because they all
leave the continuation to match at a digit, dot or comma character, while
every continuation (separator or keyword) begins with a different character. -/
def matchNum4 (cs : List Char) : Option (List Char × List Char) :=
  let p := digitRun cs
  if p.1.isEmpty then none
  else if p.1.length ≤ 4 then
    match p.2 with
    | c :: r2 =>
      if c = '.' ∨ c = ',' then
        let f := digitRun r2
        if f.1.isEmpty then some (p.1, c :: r2) else some (p.1 ++ c :: f.1, f.2)
      else some (p.1, c :: r2)
    | [] => some (p.1, [])
  else some (p.1.take 4, p.1.drop 4 ++ p.2)

/-- Match the capture group
`([0-9]{1,4}(?:[.,][0-9]+)?(?:\s*(?:-|–|—|to)\s*[0-9]{1,4}(?:[.,][0-9]+)?)?)`
at the head of the input, returning the captured characters (including any
inner whitespace and separator) and the rest.  The optional range tail is
taken greedily; when it fails the group is just the first number. -/
def matchNumRange (cs : List Char) : Option (List Char × List Char) :=
  match matchNum4 cs with
  | none => none
  | some n1 =>
    let w1 := splitWs n1.2
    match matchSepTok w1.2 with
    | some sp =>
      let w2 := splitWs sp.2
      match matchNum4 w2.2 with
      | some n2 => some (n1.1 ++ w1.1 ++ sp.1 ++ w2.1 ++ n2.1, n2.2)
      | none => some n1
    | none => some n1

/-- Match the keyword-first pattern `key\s*[:-]?\s*(number)` at this start
position, returning the captured number group.  The optional `[:-]`
consumes a colon or hyphen when present; backtracking it cannot rescue a
failing number match, since the number would then have to start at that colon
or hyphen. -/
def keyNumAt (key : List Char) (cs : List Char) : Option (List Char) :=
  match matchKeyAt key cs with
  | none => none
  | some r1 =>
    let r2 := (splitWs r1).2
    let r3 := match r2 with
      | ':' :: t => t
      | '-' :: t => t
      | t => t
    let r4 := (splitWs r3).2
    (matchNumRange r4).map (fun p => p.1)

/-- Leftmost match of the keyword-first regex over the text: scan start
positions left to right. -/
def searchKeyNumber (key : List Char) : List Char → Option (List Char)
  | [] => none
  | c :: cs =>
    match keyNumAt key (c :: cs) with
    | some cap => some cap
    | none => searchKeyNumber key cs

/-- Match the unit-first pattern `(number)\s*(?:key1|key2|…)` at this start
position.  The keyword alternation only needs to match somewhere after the
number and trailing whitespace; for the keyword lists used below (all of which
begin with a letter other than `t` or `o`), no backtracking alternative of the
number group can rescue a failing keyword match. -/
def numKeyAt (keys : List (List Char)) (cs : List Char) : Option (List Char) :=
  match matchNumRange cs with
  | none => none
  | some cap =>
    let r2 := (splitWs cap.2).2
    if keys.any (fun k => (matchKeyAt k r2).isSome) then some cap.1 else none

/-- Leftmost match of the unit-first regex over the text. -/
def searchUnitFirst (keys : List (List Char)) : List Char → Option (List Char)
  | [] => none
  | c :: cs =>
    match numKeyAt keys (c :: cs) with
    | some cap => some cap
    | none => searchUnitFirst keys cs

/-- The keyword-first loop of `searchNumber`: the first key (in list order)
whose keyword-first regex matches anywhere in the text wins. -/
def firstKeyHit : List String → String → Option (List Char)
  | [], _ => none
  | k :: ks, text =>
    match searchKeyNumber k.data text.data with
    | some cap => some cap
    | none => firstKeyHit ks text

/-- The inner `searchNumber` helper of `extractNutritionFromText`: try the
keyword-first pattern for each key in order, then the unit-first pattern over
the joined keys; a successful capture is fed to `parseNutritionNumber`. -/
def searchNumber (text : String) (keys : List String) : Option Int :=
  match firstKeyHit keys text with
  | some cap => some (parseNutritionNumber (JSValue.str (String.mk cap)))
  | none =>
    match searchUnitFirst (keys.map String.data) text.data with
    | some cap => some (parseNutritionNumber (JSValue.str (String.mk cap)))
    | none => none

/-- Function `extractNutritionFromText` of `src/lib/imageCompression.ts`.  Four
nutrients are searched; an unmatched search falls back to 0 via the
nullish-coalescing in the returned object literal.  The source also computes a
variable with code fences replaced by spaces, but the searches close over the
original `text`, so it has no effect and is omitted.  The returned object
literal has no `fiber` property, modelled as `none`. -/
def extractNutritionFromText (text : String) : NormalizedNutrition :=
  let calories := searchNumber text ["calories", "kalori", "kcal"]
  let protein := searchNumber text ["protein", "protein_g", "proteingrams"]
  let carbs := searchNumber text ["carbs", "carbohydrate", "karbohidrat", "carbs_g"]
  let fat := searchNumber text ["fat", "lemak", "fat_g"]
  { calories := calories.getD 0
    protein := protein.getD 0
    carbs := carbs.getD 0
    fat := fat.getD 0
    fiber := none }

/-- Function `isNutritionEmpty`: all four core macro fields are exactly zero. -/
def isNutritionEmpty (nutrition : NormalizedNutrition) : Bool :=
  nutrition.calories = 0 ∧ nutrition.protein = 0 ∧ nutrition.carbs = 0 ∧ nutrition.fat = 0

/-- JavaScript `a || b` on the numeric fields: `b` exactly when `a` is falsy,
which for the integer field values means 0. -/
def jsOrNum (a b : Int) : Int := if a = 0 then b else a

/-- JavaScript `a || b` on the optional `fiber` fields: `undefined` and 0 are
falsy. -/
def jsOrFiber (a b : Option Int) : Option Int :=
  match a with
  | none => b
  | some x => if x = 0 then b else a

/-- Function `mergeNutrition` of `src/lib/imageCompression.ts`: per-field `||` of
primary over fallback. -/
def mergeNutrition (primary fallback : NormalizedNutrition) : NormalizedNutrition :=
  { calories := jsOrNum primary.calories fallback.calories
    protein := jsOrNum primary.protein fallback.protein
    carbs := jsOrNum primary.carbs fallback.carbs
    fat := jsOrNum primary.fat fallback.fat
    fiber := jsOrFiber primary.fiber fallback.fiber }

/-- A network response as far as the retry executor inspects it: its HTTP
status and its `ok` flag. -/
structure Response where
  status : Nat
  ok : Bool
deriving DecidableEq

/-- A value resolved by the wrapped operation: either a plain value or a
`Response` (the source detects the latter with `instanceof Response`). -/
inductive JSResult (α : Type) where
  | plain (a : α)
  | resp (r : Response)
deriving DecidableEq

/-- Outcome of one invocation of the wrapped operation: it resolves with a
value or rejects with a thrown error.  Thrown values are modelled as already
being `Error` objects (the source wraps a non-`Error` thrown value once, which
none of the claims exercise). -/
inductive FnOutcome (α ε : Type) where
  | resolve (v : JSResult α)
  | reject (e : ε)
deriving DecidableEq

/-- The error carried by a failed `RetryResult`: either the original thrown
error object, propagated unmodified, or the `Error` the executor constructs
when a retryable response exhausts the attempt budget (whose message holds the
prefix, the attempt count and the response status; only the structured data is
modelled). -/
inductive RetryError (ε : Type) where
  | original (e : ε)
  | exhausted (attempts : Nat) (status : Nat)
deriving DecidableEq

/-- Structure `RetryResult` of the source, without the wall-clock `totalTime` field
(timing is not modelled). -/
structure RetryResult (α ε : Type) where
  success : Bool
  data : Option (JSResult α) := none
  error : Option (RetryError ε) := none
  attempts : Nat
deriving DecidableEq

/-- Default response-retryability predicate of the source: server errors
(status at least 500) and rate limits (status 429). -/
def defaultIsRetryableResponse (response : Response) : Bool :=
  500 ≤ response.status || response.status == 429

/-- Structure `RetryOptions` of the source.  The delay parameters only feed the sleep
between attempts, which does not influence the returned result; they are kept
for completeness.  The default error predicate of the source inspects
`TypeError`/message text of concrete JavaScript errors; over an abstract error
type the predicate must be supplied. -/
structure RetryOptions (ε : Type) where
  maxRetries : Nat := 3
  initialDelay : Rat := 1000
  maxDelay : Rat := 10000
  backoffMultiplier : Rat := 2
  jitter : Bool := true
  isRetryable : ε → Bool
  isRetryableResponse : Response → Bool := defaultIsRetryableResponse

/-- Function `calculateDelay` of `src/lib/performanceMonitor.ts`.  `rand` stands for
the `Math.random()` draw (in `[0,1)`); it is consulted only when jitter is
enabled. -/
def calculateDelay (attempt : Nat) (initialDelay maxDelay backoffMultiplier : Rat)
    (jitter : Bool) (rand : Rat) : Rat :=
  let exponentialDelay := initialDelay * backoffMultiplier ^ attempt
  let delay := min exponentialDelay maxDelay
  if jitter then
    let jitterAmount := delay * (2 / 10)
    let jitterValue := (rand * 2 - 1) * jitterAmount
    max 0 (delay + jitterValue)
  else
    delay

/-- The retry loop of `retry`, one step per loop iteration, with the wrapped
operation modelled as a function from the attempt index to that invocation's
outcome.  `fuel` maintains `fuel = maxRetries - attempt`, so the source's
`attempt >= maxRetries` test is `fuel = 0`.  Alongside the result, the list of
attempt indices at which the operation was invoked is returned.  The sleep
between attempts only consumes time and is not modelled; the source's
unreachable return after the loop is never taken because the loop always
returns at `attempt = maxRetries`. -/
def retryGo {α ε : Type} (fn : Nat → FnOutcome α ε) (isRetryable : ε → Bool)
    (isRetryableResponse : Response → Bool) : Nat → Nat → RetryResult α ε × List Nat
  | attempt, fuel =>
    match fn attempt with
    | FnOutcome.resolve v =>
      match v with
      | JSResult.resp r =>
        if !r.ok && isRetryableResponse r then
          match fuel with
          | 0 =>
            ({ success := false, error := some (RetryError.exhausted (attempt + 1) r.status),
               attempts := attempt + 1 }, [attempt])
          | Nat.succ f =>
            let next := retryGo fn isRetryable isRetryableResponse (attempt + 1) f
            (next.1, attempt :: next.2)
        else
          ({ success := true, data := some v, attempts := attempt + 1 }, [attempt])
      | JSResult.plain _ =>
        ({ success := true, data := some v, attempts := attempt + 1 }, [attempt])
    | FnOutcome.reject e =>
      if !isRetryable e then
        ({ success := false, error := some (RetryError.original e),
           attempts := attempt + 1 }, [attempt])
      else
        match fuel with
        | 0 =>
          ({ success := false, error := some (RetryError.original e),
             attempts := attempt + 1 }, [attempt])
        | Nat.succ f =>
          let next := retryGo fn isRetryable isRetryableResponse (attempt + 1) f
          (next.1, attempt :: next.2)

/-- Function `retry` of `src/lib/performanceMonitor.ts`, instrumented with the list of
attempt indices at which the wrapped operation was invoked. -/
def retryTraced {α ε : Type} (fn : Nat → FnOutcome α ε) (options : RetryOptions ε) :
    RetryResult α ε × List Nat :=
  retryGo fn options.isRetryable options.isRetryableResponse 0 options.maxRetries

/-- Function `retry` of `src/lib/performanceMonitor.ts`: the returned result. -/
def retry {α ε : Type} (fn : Nat → FnOutcome α ε) (options : RetryOptions ε) :
    RetryResult α ε :=
  (retryTraced fn options).1

/-- Branch evaluation of `parseNutritionNumber` on a string whose normalized
form matches the range regex. -/
lemma parse_str_range (v : String) (g : (List Char × List Char) × (List Char × List Char))
    (h : findRange (trimChars (v.data.map commaToDot)) = some g) :
    parseNutritionNumber (JSValue.str v)
      = max 0 (jsRound ((decValue g.1.1 g.1.2 + decValue g.2.1 g.2.2) / 2)) := by
  simp only [parseNutritionNumber, h]

/-- Branch evaluation of `parseNutritionNumber` on a string with no range
match but a first-number match. -/
lemma parse_str_first (v : String) (m : Bool × List Char × List Char)
    (h0 : findRange (trimChars (v.data.map commaToDot)) = none)
    (h : findFirstNumber (trimChars (v.data.map commaToDot)) = some m) :
    parseNutritionNumber (JSValue.str v)
      = max 0 (jsRound ((if m.1 then (-1 : Rat) else 1) * decValue m.2.1 m.2.2)) := by
  simp only [parseNutritionNumber, h0, h]

/-- Branch evaluation of `parseNutritionNumber` on a string with no numeric
match at all. -/
lemma parse_str_none (v : String)
    (h0 : findRange (trimChars (v.data.map commaToDot)) = none)
    (h : findFirstNumber (trimChars (v.data.map commaToDot)) = none) :
    parseNutritionNumber (JSValue.str v) = 0 := by
  simp only [parseNutritionNumber, h0, h]

/-- Evaluate `max 0 (jsRound q)` to a natural number by bounding `q + 1/2`. -/
lemma maxRound_eq_nat (q : Rat) (n : Nat) (h1 : (n : Rat) ≤ q + 1 / 2) (h2 : q + 1 / 2 < n + 1) :
    max 0 (jsRound q) = n := by
  have hf : jsRound q = (n : Int) := by
    rw [jsRound]
    refine Int.floor_eq_iff.mpr ⟨by exact_mod_cast h1, by push_cast; exact h2⟩
  rw [hf]
  exact max_eq_right (by positivity)

/-- Evaluate `max 0 (jsRound q)` to 0: the clamping branch. -/
lemma maxRound_eq_zero (q : Rat) (h : q + 1 / 2 < 1) : max 0 (jsRound q) = 0 := by
  have hf : jsRound q < 1 := by
    rw [jsRound]
    exact Int.floor_lt.mpr (by exact_mod_cast h)
  omega

/-- The trace of the retry loop is the contiguous block of attempt indices
from the starting attempt, its length is `attempts - attempt`, and the final
attempt count is between one and `fuel + 1` iterations beyond the start. -/
lemma retryGo_spec {α ε : Type} (fn : Nat → FnOutcome α ε) (isR : ε → Bool)
    (isRR : Response → Bool) :
    ∀ (fuel attempt : Nat),
      (retryGo fn isR isRR attempt fuel).2
          = List.range' attempt ((retryGo fn isR isRR attempt fuel).1.attempts - attempt) ∧
      attempt + 1 ≤ (retryGo fn isR isRR attempt fuel).1.attempts ∧
      (retryGo fn isR isRR attempt fuel).1.attempts ≤ attempt + fuel + 1 := by
  intro fuel
  induction fuel with
  | zero =>
    intro attempt
    rw [retryGo]
    rcases h : fn attempt with v | e
    · rcases v with a | r
      · simp
      · rcases hc : (!r.ok && isRR r) with _ | _ <;> simp [hc]
    · rcases hc : (!isR e) with _ | _ <;> simp [hc]
  | succ f ih =>
    intro attempt
    rw [retryGo]
    rcases h : fn attempt with v | e
    · rcases v with a | r
      · simp
      · rcases hc : (!r.ok && isRR r) with _ | _
        · simp [hc]
        · obtain ⟨h1, h2, h3⟩ := ih (attempt + 1)
          simp only [hc, if_true]
          refine ⟨?_, by omega, by omega⟩
          have hk : (retryGo fn isR isRR (attempt + 1) f).1.attempts - attempt
              = ((retryGo fn isR isRR (attempt + 1) f).1.attempts - (attempt + 1)) + 1 := by
            omega
          rw [hk, List.range'_succ, ← h1]
    · rcases hc : (!isR e) with _ | _
      · obtain ⟨h1, h2, h3⟩ := ih (attempt + 1)
        simp only [hc, Bool.false_eq_true, if_false]
        refine ⟨?_, by omega, by omega⟩
        have hk : (retryGo fn isR isRR (attempt + 1) f).1.attempts - attempt
            = ((retryGo fn isR isRR (attempt + 1) f).1.attempts - (attempt + 1)) + 1 := by
          omega
        rw [hk, List.range'_succ, ← h1]
      · simp [hc]

/-- C1.  For every wrapped operation and every `RetryOptions`, the retry
executor's `attempts` equals the exact number of invocations of the operation
(the trace of invoked attempt indices is `0, …, attempts - 1`), and
`1 ≤ attempts ≤ maxRetries + 1`.  In particular: an operation succeeding on
the first call yields success with one invocation; one retryable rejection
then success yields `attempts = 2`; always rejecting retryably with
`maxRetries = 2` yields failure with `attempts = 3` and exactly three
invocations; a 500 response then a 200 response yields success with
`attempts = 2`. -/
theorem retry_attempts_counts_invocations :
    (∀ (α ε : Type) (fn : Nat → FnOutcome α ε) (options : RetryOptions ε),
      (retryTraced fn options).2 = List.range ((retry fn options).attempts) ∧
      1 ≤ (retry fn options).attempts ∧
      (retry fn options).attempts ≤ options.maxRetries + 1) ∧
    retryTraced (fun _ => FnOutcome.resolve (JSResult.plain ())) (ε := Unit)
        { isRetryable := fun _ => true } =
      ({ success := true, data := some (JSResult.plain ()), attempts := 1 }, [0]) ∧
    retry (fun n => if n = 0 then FnOutcome.reject () else FnOutcome.resolve (JSResult.plain ()))
        { isRetryable := fun _ => true } =
      { success := true, data := some (JSResult.plain ()), attempts := 2 } ∧
    retryTraced (fun _ => FnOutcome.reject ()) (α := Unit)
        { maxRetries := 2, isRetryable := fun _ => true } =
      ({ success := false, error := some (RetryError.original ()), attempts := 3 }, [0, 1, 2]) ∧
    retry (fun n => if n = 0 then FnOutcome.resolve (JSResult.resp { status := 500, ok := false })
          else FnOutcome.resolve (JSResult.resp { status := 200, ok := true }))
        (α := Unit) (ε := Unit) { isRetryable := fun _ => true } =
      { success := true, data := some (JSResult.resp { status := 200, ok := true }),
        attempts := 2 } := by
  refine ⟨?_, by decide, by decide, by decide, by decide⟩
  intro α ε fn options
  obtain ⟨h1, h2, h3⟩ :=
    retryGo_spec fn options.isRetryable options.isRetryableResponse options.maxRetries 0
  refine ⟨?_, by simpa using h2, by simpa using h3⟩
  rw [retryTraced, retry, retryTraced, List.range_eq_range']
  simpa using h1

/-- C4.  When an attempt rejects with an error the retryability predicate
refuses, the executor stops at once: the result is a failure whose `attempts`
is the number of attempts made so far (in particular 1 when the first attempt
throws a non-retryable error, for every `maxRetries`), and the `error` field
is the original thrown error object unmodified. -/
theorem retry_nonretryable_error_immediate :
    ∀ (α ε : Type) (fn : Nat → FnOutcome α ε) (options : RetryOptions ε) (e : ε),
      (∀ attempt fuel, fn attempt = FnOutcome.reject e → options.isRetryable e = false →
        retryGo fn options.isRetryable options.isRetryableResponse attempt fuel =
          ({ success := false, error := some (RetryError.original e),
             attempts := attempt + 1 }, [attempt])) ∧
      (fn 0 = FnOutcome.reject e → options.isRetryable e = false →
        retry fn options =
          { success := false, error := some (RetryError.original e), attempts := 1 }) := by
  intro α ε fn options e
  have hgo : ∀ attempt fuel, fn attempt = FnOutcome.reject e →
      options.isRetryable e = false →
      retryGo fn options.isRetryable options.isRetryableResponse attempt fuel =
        ({ success := false, error := some (RetryError.original e),
           attempts := attempt + 1 }, [attempt]) := by
    intro attempt fuel h he
    simp [retryGo, h, he]
  refine ⟨hgo, ?_⟩
  intro h he
  rw [retry, retryTraced, hgo 0 options.maxRetries h he]

/-- C6.  When an attempt resolves with a response that is not ok but that the
response predicate does not flag retryable, the executor succeeds at once with
that response as data and performs no further attempts; and the default
response predicate flags a response retryable exactly when its status is at
least 500 or equals 429 (so a 404 is not retryable). -/
theorem retry_nonretryable_response_succeeds :
    (∀ (α ε : Type) (fn : Nat → FnOutcome α ε) (options : RetryOptions ε) (r : Response),
      (∀ attempt fuel, fn attempt = FnOutcome.resolve (JSResult.resp r) → r.ok = false →
        options.isRetryableResponse r = false →
        retryGo fn options.isRetryable options.isRetryableResponse attempt fuel =
          ({ success := true, data := some (JSResult.resp r),
             attempts := attempt + 1 }, [attempt])) ∧
      (fn 0 = FnOutcome.resolve (JSResult.resp r) → r.ok = false →
        options.isRetryableResponse r = false →
        retryTraced fn options =
          ({ success := true, data := some (JSResult.resp r), attempts := 1 }, [0]))) ∧
    (∀ r : Response, defaultIsRetryableResponse r = true ↔ 500 ≤ r.status ∨ r.status = 429) ∧
    defaultIsRetryableResponse { status := 404, ok := false } = false := by
  refine ⟨?_, ?_, by decide⟩
  · intro α ε fn options r
    have hgo : ∀ attempt fuel, fn attempt = FnOutcome.resolve (JSResult.resp r) →
        r.ok = false → options.isRetryableResponse r = false →
        retryGo fn options.isRetryable options.isRetryableResponse attempt fuel =
          ({ success := true, data := some (JSResult.resp r),
             attempts := attempt + 1 }, [attempt]) := by
      intro attempt fuel h hok hr
      simp [retryGo, h, hok, hr]
    exact ⟨hgo, fun h hok hr => by rw [retryTraced, hgo 0 options.maxRetries h hok hr]⟩
  · intro r
    simp [defaultIsRetryableResponse]

/-- Witness for C4 at a concrete operation: a function that always rejects a
non-retryable error, with `maxRetries = 5`, fails immediately with one
attempt. -/
theorem retry_nonretryable_error_immediate_witness :
    retry (fun _ => FnOutcome.reject ()) (α := Unit)
      { maxRetries := 5, isRetryable := fun _ => false } =
      { success := false, error := some (RetryError.original ()), attempts := 1 } :=
  (retry_nonretryable_error_immediate Unit Unit (fun _ => FnOutcome.reject ())
    { maxRetries := 5, isRetryable := fun _ => false } ()).2 rfl rfl

/-- Witness for C6 at a concrete operation: a 404 response under the default
response predicate succeeds on the first attempt with the 404 as data. -/
theorem retry_nonretryable_response_succeeds_witness :
    retryTraced (fun _ => FnOutcome.resolve (JSResult.resp { status := 404, ok := false }))
      (α := Unit) (ε := Unit) { isRetryable := fun _ => true } =
      ({ success := true, data := some (JSResult.resp { status := 404, ok := false }),
         attempts := 1 }, [0]) :=
  (retry_nonretryable_response_succeeds.1 Unit Unit
    (fun _ => FnOutcome.resolve (JSResult.resp { status := 404, ok := false }))
    { isRetryable := fun _ => true } { status := 404, ok := false }).2 rfl rfl (by decide)

/-- C5.  With jitter disabled the delay before the retry following attempt `n`
is exactly `min(initialDelay * backoffMultiplier ^ n, maxDelay)` (for example
100ms then 200ms with `initialDelay = 100` and multiplier 2, capped at
`maxDelay`); with jitter enabled and positive parameters, for every uniform
draw `rand ∈ [0,1)` the delay equals `max 0 (base * (1 + u * 0.2))` with
`u = 2 * rand - 1 ∈ [-1,1)`, hence lies within twenty percent of the
un-jittered base. -/
theorem calculateDelay_backoff_and_jitter :
    ∀ (attempt : Nat) (initialDelay maxDelay backoffMultiplier rand : Rat),
      (calculateDelay attempt initialDelay maxDelay backoffMultiplier false rand
          = min (initialDelay * backoffMultiplier ^ attempt) maxDelay) ∧
      (0 < initialDelay → 0 < maxDelay → 0 < backoffMultiplier → 0 ≤ rand → rand < 1 →
        calculateDelay attempt initialDelay maxDelay backoffMultiplier true rand
            = max 0 (min (initialDelay * backoffMultiplier ^ attempt) maxDelay
                * (1 + (2 * rand - 1) * (2 / 10))) ∧
        (-1 : Rat) ≤ 2 * rand - 1 ∧ 2 * rand - 1 < 1 ∧
        min (initialDelay * backoffMultiplier ^ attempt) maxDelay * (8 / 10)
            ≤ calculateDelay attempt initialDelay maxDelay backoffMultiplier true rand ∧
        calculateDelay attempt initialDelay maxDelay backoffMultiplier true rand
            ≤ min (initialDelay * backoffMultiplier ^ attempt) maxDelay * (12 / 10)) ∧
      (calculateDelay 0 100 10000 2 false rand = 100 ∧
       calculateDelay 1 100 10000 2 false rand = 200 ∧
       calculateDelay 10 100 10000 2 false rand = 10000) := by
  intro attempt i m b r
  refine ⟨by simp [calculateDelay], ?_, ?_⟩
  · intro hi hm hb hr0 hr1
    have hdpos : 0 < min (i * b ^ attempt) m := lt_min (by positivity) hm
    set d := min (i * b ^ attempt) m with hd
    have heq : calculateDelay attempt i m b true r = max 0 (d + (r * 2 - 1) * (d * (2 / 10))) := by
      simp [calculateDelay, hd]
    have hform : d + (r * 2 - 1) * (d * (2 / 10)) = d * (1 + (2 * r - 1) * (2 / 10)) := by ring
    have hlow : d * (8 / 10) ≤ d * (1 + (2 * r - 1) * (2 / 10)) := by nlinarith
    have hhigh : d * (1 + (2 * r - 1) * (2 / 10)) ≤ d * (12 / 10) := by nlinarith
    have hpos : (0 : Rat) ≤ d * (1 + (2 * r - 1) * (2 / 10)) := by nlinarith
    have hval : calculateDelay attempt i m b true r = d * (1 + (2 * r - 1) * (2 / 10)) := by
      rw [heq, hform, max_eq_right hpos]
    refine ⟨by rw [hval, max_eq_right hpos], by linarith, by linarith, ?_, ?_⟩
    · rw [hval]; exact hlow
    · rw [hval]; exact hhigh
  · refine ⟨?_, ?_, ?_⟩ <;> norm_num [calculateDelay, min_def]

/-- Witness for C5 at `attempt = 1`, `initialDelay = 100`, `maxDelay = 10000`,
multiplier 2 and `rand = 1/2`. -/
theorem calculateDelay_backoff_and_jitter_witness :
    calculateDelay 1 100 10000 2 true (1 / 2)
        = max 0 (min ((100 : Rat) * 2 ^ 1) 10000 * (1 + (2 * (1 / 2) - 1) * (2 / 10))) ∧
      (-1 : Rat) ≤ 2 * (1 / 2) - 1 ∧ 2 * (1 / 2 : Rat) - 1 < 1 ∧
      min ((100 : Rat) * 2 ^ 1) 10000 * (8 / 10) ≤ calculateDelay 1 100 10000 2 true (1 / 2) ∧
      calculateDelay 1 100 10000 2 true (1 / 2) ≤ min ((100 : Rat) * 2 ^ 1) 10000 * (12 / 10) :=
  (calculateDelay_backoff_and_jitter 1 100 10000 2 (1 / 2)).2.1
    (by norm_num) (by norm_num) (by norm_num) (by norm_num) (by norm_num)

/-- C2.  `parseNutritionNumber` is total and never returns a negative value;
`null`, `undefined`, NaN and non-numeric strings give 0, and negative inputs
are clamped to 0. -/
theorem parseNutritionNumber_total_nonneg :
    (∀ v : JSValue, 0 ≤ parseNutritionNumber v) ∧
    parseNutritionNumber JSValue.null = 0 ∧
    parseNutritionNumber JSValue.undef = 0 ∧
    parseNutritionNumber JSValue.nan = 0 ∧
    parseNutritionNumber (JSValue.str "invalid") = 0 ∧
    parseNutritionNumber (JSValue.num (-10)) = 0 ∧
    parseNutritionNumber (JSValue.str "-50") = 0 := by
  refine ⟨?_, rfl, rfl, rfl, parse_str_none _ (by decide) (by decide), ?_, ?_⟩
  · intro v
    cases v with
    | num q => exact le_max_left _ _
    | str s =>
      simp only [parseNutritionNumber]
      split
      · exact le_max_left _ _
      · split
        · exact le_max_left _ _
        · exact le_refl 0
    | nan => exact le_refl 0
    | null => exact le_refl 0
    | undef => exact le_refl 0
  · simp only [parseNutritionNumber]
    exact maxRound_eq_zero _ (by norm_num)
  · rw [parse_str_first _ (true, (['5', '0'], [])) (by decide) (by decide)]
    apply maxRound_eq_zero
    rw [decValue, show digitsToNat ['5', '0'] = 50 from by decide,
      show digitsToNat [] = 0 from by decide]
    norm_num

/-- C3.  On strings, `parseNutritionNumber` first normalizes commas to dots,
then returns the clamped rounded midpoint of a matched range (separator a
hyphen, en-dash, em-dash or the word `to`, case insensitive), else the clamped
rounding of the first signed decimal substring, else 0; with the documented
concrete values. -/
theorem parseNutritionNumber_string_algorithm :
    (∀ (v : String) (g : (List Char × List Char) × (List Char × List Char)),
      findRange (trimChars (v.data.map commaToDot)) = some g →
      parseNutritionNumber (JSValue.str v)
        = max 0 (jsRound ((decValue g.1.1 g.1.2 + decValue g.2.1 g.2.2) / 2))) ∧
    (∀ (v : String) (m : Bool × List Char × List Char),
      findRange (trimChars (v.data.map commaToDot)) = none →
      findFirstNumber (trimChars (v.data.map commaToDot)) = some m →
      parseNutritionNumber (JSValue.str v)
        = max 0 (jsRound ((if m.1 then (-1 : Rat) else 1) * decValue m.2.1 m.2.2))) ∧
    (∀ v : String,
      findRange (trimChars (v.data.map commaToDot)) = none →
      findFirstNumber (trimChars (v.data.map commaToDot)) = none →
      parseNutritionNumber (JSValue.str v) = 0) ∧
    parseNutritionNumber (JSValue.str "200-300") = 250 ∧
    parseNutritionNumber (JSValue.str "50 to 100") = 75 ∧
    parseNutritionNumber (JSValue.str "100 – 200") = 150 ∧
    parseNutritionNumber (JSValue.str "100,5") = 101 ∧
    parseNutritionNumber (JSValue.str "123,45") = 123 ∧
    parseNutritionNumber (JSValue.str "100 kcal") = 100 ∧
    parseNutritionNumber (JSValue.str "~50g") = 50 := by
  refine ⟨parse_str_range, parse_str_first, parse_str_none, ?_, ?_, ?_, ?_, ?_, ?_, ?_⟩
  · rw [parse_str_range _ ((['2', '0', '0'], []), (['3', '0', '0'], [])) (by decide)]
    apply maxRound_eq_nat <;>
      rw [decValue, decValue, show digitsToNat ['2', '0', '0'] = 200 from by decide,
        show digitsToNat ['3', '0', '0'] = 300 from by decide,
        show digitsToNat [] = 0 from by decide] <;>
      norm_num
  · rw [parse_str_range _ ((['5', '0'], []), (['1', '0', '0'], [])) (by decide)]
    apply maxRound_eq_nat <;>
      rw [decValue, decValue, show digitsToNat ['5', '0'] = 50 from by decide,
        show digitsToNat ['1', '0', '0'] = 100 from by decide,
        show digitsToNat [] = 0 from by decide] <;>
      norm_num
  · rw [parse_str_range _ ((['1', '0', '0'], []), (['2', '0', '0'], [])) (by decide)]
    apply maxRound_eq_nat <;>
      rw [decValue, decValue, show digitsToNat ['1', '0', '0'] = 100 from by decide,
        show digitsToNat ['2', '0', '0'] = 200 from by decide,
        show digitsToNat [] = 0 from by decide] <;>
      norm_num
  · rw [parse_str_first _ (false, (['1', '0', '0'], ['5'])) (by decide) (by decide)]
    apply maxRound_eq_nat <;>
      rw [decValue, show digitsToNat ['1', '0', '0'] = 100 from by decide,
        show digitsToNat ['5'] = 5 from by decide] <;>
      norm_num
  · rw [parse_str_first _ (false, (['1', '2', '3'], ['4', '5'])) (by decide) (by decide)]
    apply maxRound_eq_nat <;>
      rw [decValue, show digitsToNat ['1', '2', '3'] = 123 from by decide,
        show digitsToNat ['4', '5'] = 45 from by decide] <;>
      norm_num
  · rw [parse_str_first _ (false, (['1', '0', '0'], [])) (by decide) (by decide)]
    apply maxRound_eq_nat <;>
      rw [decValue, show digitsToNat ['1', '0', '0'] = 100 from by decide,
        show digitsToNat [] = 0 from by decide] <;>
      norm_num
  · rw [parse_str_first _ (false, (['5', '0'], [])) (by decide) (by decide)]
    apply maxRound_eq_nat <;>
      rw [decValue, show digitsToNat ['5', '0'] = 50 from by decide,
        show digitsToNat [] = 0 from by decide] <;>
      norm_num

/-- Witness for C3: the range branch applied at the concrete input
`"200-300"`, whose captured groups are `200` and `300`. -/
theorem parseNutritionNumber_string_algorithm_witness :
    parseNutritionNumber (JSValue.str "200-300")
      = max 0 (jsRound ((decValue ['2', '0', '0'] [] + decValue ['3', '0', '0'] []) / 2)) :=
  parseNutritionNumber_string_algorithm.1 "200-300"
    ((['2', '0', '0'], []), (['3', '0', '0'], [])) (by decide)

/-- C10.  The comma replacement is global (not restricted to decimal-separator
position): parsing a string equals parsing its fully comma-replaced form, the
thousands-separated `"1,000"` is misread as the decimal `1.000` and yields 1,
and a string with several commas such as `"1,2,3"` has every comma treated as
a decimal point (its first extracted number is `1.2`, rounded to 1). -/
theorem parseNutritionNumber_comma_replacement_global :
    (∀ s : String,
      parseNutritionNumber (JSValue.str s)
        = parseNutritionNumber (JSValue.str (String.mk (s.data.map commaToDot)))) ∧
    parseNutritionNumber (JSValue.str "1,000") = 1 ∧
    parseNutritionNumber (JSValue.str "1,2,3") = 1 := by
  have hff : ∀ c, commaToDot (commaToDot c) = commaToDot c := by
    intro c
    by_cases h : c = ',' <;> simp [commaToDot, h]
  refine ⟨?_, ?_, ?_⟩
  · intro s
    simp only [parseNutritionNumber]
    rw [List.map_map, show commaToDot ∘ commaToDot = commaToDot from funext hff]
  · rw [parse_str_first _ (false, (['1'], ['0', '0', '0'])) (by decide) (by decide)]
    apply maxRound_eq_nat <;>
      rw [decValue, show digitsToNat ['1'] = 1 from by decide,
        show digitsToNat ['0', '0', '0'] = 0 from by decide] <;>
      norm_num
  · rw [parse_str_first _ (false, (['1'], ['2'])) (by decide) (by decide)]
    apply maxRound_eq_nat <;>
      rw [decValue, show digitsToNat ['1'] = 1 from by decide,
        show digitsToNat ['2'] = 2 from by decide] <;>
      norm_num

/-- C9.  `mergeNutrition` decides each field independently: the primary value
when it is non-zero (for `fiber`: present and non-zero), else the fallback
value; consequently an all-zero primary is a left identity on the four core
fields. -/
theorem mergeNutrition_per_field :
    ∀ p q : NormalizedNutrition,
      (p.calories ≠ 0 → (mergeNutrition p q).calories = p.calories) ∧
      (p.calories = 0 → (mergeNutrition p q).calories = q.calories) ∧
      (p.protein ≠ 0 → (mergeNutrition p q).protein = p.protein) ∧
      (p.protein = 0 → (mergeNutrition p q).protein = q.protein) ∧
      (p.carbs ≠ 0 → (mergeNutrition p q).carbs = p.carbs) ∧
      (p.carbs = 0 → (mergeNutrition p q).carbs = q.carbs) ∧
      (p.fat ≠ 0 → (mergeNutrition p q).fat = p.fat) ∧
      (p.fat = 0 → (mergeNutrition p q).fat = q.fat) ∧
      (∀ x : Int, p.fiber = some x → x ≠ 0 → (mergeNutrition p q).fiber = p.fiber) ∧
      (p.fiber = none ∨ p.fiber = some 0 → (mergeNutrition p q).fiber = q.fiber) ∧
      (isNutritionEmpty p = true →
        (mergeNutrition p q).calories = q.calories ∧
        (mergeNutrition p q).protein = q.protein ∧
        (mergeNutrition p q).carbs = q.carbs ∧
        (mergeNutrition p q).fat = q.fat) := by
  intro p q
  refine ⟨fun h => by simp [mergeNutrition, jsOrNum, h],
    fun h => by simp [mergeNutrition, jsOrNum, h],
    fun h => by simp [mergeNutrition, jsOrNum, h],
    fun h => by simp [mergeNutrition, jsOrNum, h],
    fun h => by simp [mergeNutrition, jsOrNum, h],
    fun h => by simp [mergeNutrition, jsOrNum, h],
    fun h => by simp [mergeNutrition, jsOrNum, h],
    fun h => by simp [mergeNutrition, jsOrNum, h],
    fun x hx h => by simp [mergeNutrition, jsOrFiber, hx, h],
    fun h => ?_, fun h => ?_⟩
  · rcases h with h | h <;> simp [mergeNutrition, jsOrFiber, h]
  · simp only [isNutritionEmpty, decide_eq_true_eq] at h
    obtain ⟨h1, h2, h3, h4⟩ := h
    exact ⟨by simp [mergeNutrition, jsOrNum, h1], by simp [mergeNutrition, jsOrNum, h2],
      by simp [mergeNutrition, jsOrNum, h3], by simp [mergeNutrition, jsOrNum, h4]⟩

/-- Witness for C9 at a concrete pair: a partially zero primary with fiber
`some 0` against a fully non-zero fallback. -/
theorem mergeNutrition_per_field_witness :
    (mergeNutrition { calories := 0, protein := 5, carbs := 0, fat := 2, fiber := some 0 }
        { calories := 7, protein := 9, carbs := 4, fat := 6, fiber := some 3 }).calories =
      ({ calories := 7, protein := 9, carbs := 4, fat := 6,
         fiber := some 3 } : NormalizedNutrition).calories ∧
    (mergeNutrition { calories := 0, protein := 5, carbs := 0, fat := 2, fiber := some 0 }
        { calories := 7, protein := 9, carbs := 4, fat := 6, fiber := some 3 }).protein =
      ({ calories := 0, protein := 5, carbs := 0, fat := 2,
         fiber := some 0 } : NormalizedNutrition).protein ∧
    (mergeNutrition { calories := 0, protein := 5, carbs := 0, fat := 2, fiber := some 0 }
        { calories := 7, protein := 9, carbs := 4, fat := 6, fiber := some 3 }).fiber =
      ({ calories := 7, protein := 9, carbs := 4, fat := 6,
         fiber := some 3 } : NormalizedNutrition).fiber :=
  ⟨(mergeNutrition_per_field
      { calories := 0, protein := 5, carbs := 0, fat := 2, fiber := some 0 }
      { calories := 7, protein := 9, carbs := 4, fat := 6, fiber := some 3 }).2.1 rfl,
   (mergeNutrition_per_field
      { calories := 0, protein := 5, carbs := 0, fat := 2, fiber := some 0 }
      { calories := 7, protein := 9, carbs := 4, fat := 6, fiber := some 3 }).2.2.1 (by decide),
   (mergeNutrition_per_field
      { calories := 0, protein := 5, carbs := 0, fat := 2, fiber := some 0 }
      { calories := 7, protein := 9, carbs := 4, fat := 6, fiber := some 3 }).2.2.2.2.2.2.2.2.2.1
      (Or.inr rfl)⟩

/-- Unfold `firstPresentAlias` one step into the nullish coalescing it
mirrors. -/
lemma firstPresentAlias_cons (v : JSValue) (vs : List JSValue) :
    firstPresentAlias (v :: vs) = jsNullish v (firstPresentAlias vs) := by
  cases v <;> simp [firstPresentAlias, isNullish, jsNullish]

/-- Value of `parseNutritionNumber` is invariant under replacing the final fallback of
a nullish chain by `undefined`. -/
lemma pNN_jsNullish_undef (d : JSValue) :
    parseNutritionNumber (jsNullish d JSValue.undef) = parseNutritionNumber d := by
  cases d <;> simp [jsNullish, parseNutritionNumber]

/-- Congruence of `parseNutritionNumber` through one nullish-coalescing
step. -/
lemma pNN_jsNullish_congr (a : JSValue) {x y : JSValue}
    (h : parseNutritionNumber x = parseNutritionNumber y) :
    parseNutritionNumber (jsNullish a x) = parseNutritionNumber (jsNullish a y) := by
  cases a <;> simp [jsNullish, h]

/-- A four-alias nullish chain agrees with first-present selection under
`parseNutritionNumber`. -/
lemma pNN_chain4 (a b c d : JSValue) :
    parseNutritionNumber (jsNullish a (jsNullish b (jsNullish c d)))
      = parseNutritionNumber (firstPresentAlias [a, b, c, d]) := by
  rw [firstPresentAlias_cons, firstPresentAlias_cons, firstPresentAlias_cons,
    firstPresentAlias_cons, show firstPresentAlias [] = JSValue.undef from rfl]
  exact pNN_jsNullish_congr a (pNN_jsNullish_congr b
    (pNN_jsNullish_congr c (pNN_jsNullish_undef d).symm))

/-- A five-alias nullish chain agrees with first-present selection under
`parseNutritionNumber`. -/
lemma pNN_chain5 (a b c d e : JSValue) :
    parseNutritionNumber (jsNullish a (jsNullish b (jsNullish c (jsNullish d e))))
      = parseNutritionNumber (firstPresentAlias [a, b, c, d, e]) := by
  rw [firstPresentAlias_cons, firstPresentAlias_cons, firstPresentAlias_cons,
    firstPresentAlias_cons, firstPresentAlias_cons,
    show firstPresentAlias [] = JSValue.undef from rfl]
  exact pNN_jsNullish_congr a (pNN_jsNullish_congr b (pNN_jsNullish_congr c
    (pNN_jsNullish_congr d (pNN_jsNullish_undef e).symm)))

/-- A three-alias nullish chain agrees with first-present selection under
`parseNutritionNumber`. -/
lemma pNN_chain3 (a b c : JSValue) :
    parseNutritionNumber (jsNullish a (jsNullish b c))
      = parseNutritionNumber (firstPresentAlias [a, b, c]) := by
  rw [firstPresentAlias_cons, firstPresentAlias_cons, firstPresentAlias_cons,
    show firstPresentAlias [] = JSValue.undef from rfl]
  exact pNN_jsNullish_congr a (pNN_jsNullish_congr b (pNN_jsNullish_undef c).symm)

/-- Nullish values coalesce away. -/
lemma jsNullish_of_nullish (a b : JSValue) (h : isNullish a = true) : jsNullish a b = b := by
  cases a <;> simp_all [isNullish, jsNullish]

/-- Applying `parseNutritionNumber` to a nullish value gives 0. -/
lemma pNN_of_nullish (v : JSValue) (h : isNullish v = true) : parseNutritionNumber v = 0 := by
  cases v <;> simp_all [isNullish, parseNutritionNumber]

/-- Evaluate `parseNutritionNumber` on a finite number. -/
lemma pNN_num_eval (q : Rat) (n : Nat) (h1 : (n : Rat) ≤ q + 1 / 2) (h2 : q + 1 / 2 < n + 1) :
    parseNutritionNumber (JSValue.num q) = n := by
  simp only [parseNutritionNumber]
  exact maxRound_eq_nat q n h1 h2

/-- C8.  `normalizeNutritionData` selects, for each canonical field, the first
present alias value in the fixed priority order and feeds it through
`parseNutritionNumber`; `fiber` is always populated and defaults to 0 when no
fiber alias is present; and the documented Indonesian-alias example normalizes
to `calories 200, protein 20, carbs 30, fat 10`. -/
theorem normalizeNutritionData_alias_selection :
    (∀ raw : RawNutrition,
      (normalizeNutritionData raw).calories
          = parseNutritionNumber (firstPresentAlias
              [raw.calories, raw.kalori, raw.total_calories, raw.estimasi_kalori]) ∧
      (normalizeNutritionData raw).protein
          = parseNutritionNumber (firstPresentAlias
              [raw.protein, raw.protein_g, raw.protein_grams, raw.protein_gram]) ∧
      (normalizeNutritionData raw).carbs
          = parseNutritionNumber (firstPresentAlias
              [raw.carbs, raw.karbohidrat, raw.karbohidrat_g, raw.carbs_grams, raw.carbs_g]) ∧
      (normalizeNutritionData raw).fat
          = parseNutritionNumber (firstPresentAlias
              [raw.fat, raw.lemak, raw.lemak_g, raw.fat_grams, raw.fat_g]) ∧
      (normalizeNutritionData raw).fiber
          = some (parseNutritionNumber (firstPresentAlias [raw.fiber, raw.serat, raw.fiber_g])) ∧
      (isNullish raw.fiber = true → isNullish raw.serat = true → isNullish raw.fiber_g = true →
        (normalizeNutritionData raw).fiber = some 0)) ∧
    normalizeNutritionData
        { kalori := JSValue.num 200, protein_g := JSValue.num 20,
          karbohidrat := JSValue.num 30, lemak := JSValue.num 10 } =
      { calories := 200, protein := 20, carbs := 30, fat := 10, fiber := some 0 } := by
  constructor
  · intro raw
    refine ⟨pNN_chain4 _ _ _ _, pNN_chain4 _ _ _ _, pNN_chain5 _ _ _ _ _,
      pNN_chain5 _ _ _ _ _, congrArg some (pNN_chain3 _ _ _), ?_⟩
    intro h1 h2 h3
    show some (parseNutritionNumber (jsNullish raw.fiber (jsNullish raw.serat raw.fiber_g)))
        = some 0
    rw [jsNullish_of_nullish _ _ h1, jsNullish_of_nullish _ _ h2, pNN_of_nullish _ h3]
  · simp only [normalizeNutritionData, jsNullish, NormalizedNutrition.mk.injEq]
    refine ⟨?_, ?_, ?_, ?_, rfl⟩ <;>
      exact_mod_cast pNN_num_eval _ _ (by norm_num) (by norm_num)

/-- Witness for C8: in the Indonesian-alias example no fiber alias is present,
so the normalized `fiber` defaults to 0. -/
theorem normalizeNutritionData_alias_selection_witness :
    (normalizeNutritionData
        { kalori := JSValue.num 200, protein_g := JSValue.num 20,
          karbohidrat := JSValue.num 30, lemak := JSValue.num 10 }).fiber = some 0 :=
  (normalizeNutritionData_alias_selection.1
    { kalori := JSValue.num 200, protein_g := JSValue.num 20,
      karbohidrat := JSValue.num 30, lemak := JSValue.num 10 }).2.2.2.2.2 rfl rfl rfl

/-- Evaluate `searchNumber` through a successful keyword-first capture. -/
lemma searchNumber_key_eval (text : String) (keys : List String) (cap : List Char) (z : Int)
    (h : firstKeyHit keys text = some cap)
    (hz : parseNutritionNumber (JSValue.str (String.mk cap)) = z) :
    searchNumber text keys = some z := by
  simp only [searchNumber, h, hz]

/-- Evaluate `searchNumber` through a successful unit-first capture after the
keyword-first patterns all fail. -/
lemma searchNumber_unit_eval (text : String) (keys : List String) (cap : List Char) (z : Int)
    (h0 : firstKeyHit keys text = none)
    (h : searchUnitFirst (keys.map String.data) text.data = some cap)
    (hz : parseNutritionNumber (JSValue.str (String.mk cap)) = z) :
    searchNumber text keys = some z := by
  simp only [searchNumber, h0, h, hz]

/-- Evaluate `searchNumber` when both patterns fail for every key. -/
lemma searchNumber_none_eval (text : String) (keys : List String)
    (h0 : firstKeyHit keys text = none)
    (h : searchUnitFirst (keys.map String.data) text.data = none) :
    searchNumber text keys = none := by
  simp only [searchNumber, h0, h]

/-- Evaluate `parseNutritionNumber` on a string whose first-number match is a
plain unsigned digit run (as for the captures of `extractNutritionFromText`
in the examples below). -/
lemma parse_digits_eq (v : String) (ds : List Char) (z : Int)
    (h0 : findRange (trimChars (v.data.map commaToDot)) = none)
    (h : findFirstNumber (trimChars (v.data.map commaToDot)) = some (false, (ds, [])))
    (hn : (digitsToNat ds : Int) = z) :
    parseNutritionNumber (JSValue.str v) = z := by
  rw [parse_str_first v (false, (ds, [])) h0 h, ← hn]
  have hid : decValue ds [] = (digitsToNat ds : Rat) := by
    rw [decValue, show digitsToNat [] = 0 from rfl]
    norm_num
  show max 0 (jsRound (1 * decValue ds [])) = ((digitsToNat ds : Int) : Int)
  rw [one_mul, hid]
  apply maxRound_eq_nat <;> linarith

/-- C7 counterexample: `extractNutritionFromText` does not search fiber and
does not place a 0 for it; on the input `"fiber: 10"` the returned record has
no fiber value at all — neither the matched 10 nor the claimed default 0. -/
theorem extractNutritionFromText_fiber_counterexample :
    (extractNutritionFromText "fiber: 10").fiber = none ∧
    (extractNutritionFromText "fiber: 10").fiber ≠ some 10 ∧
    (extractNutritionFromText "fiber: 10").fiber ≠ some 0 :=
  ⟨rfl, by simp [extractNutritionFromText], by simp [extractNutritionFromText]⟩

/-- C7 (amended).  `extractNutritionFromText` searches only the four nutrients
calories, protein, carbs and fat, each by a keyword-alias-then-number match
falling back to number-then-keyword (the two regex passes of `searchNumber`);
each of the four resolves to 0 when no match succeeds and to the parsed
capture when one does, while fiber is never searched and is left absent from
the returned record.  The keyword pass is exercised by the English and
Indonesian example texts, the unit-first fallback by `"200 kcal"`. -/
theorem extractNutritionFromText_four_nutrients :
    (∀ text : String,
      (extractNutritionFromText text).fiber = none ∧
      (searchNumber text ["calories", "kalori", "kcal"] = none →
        (extractNutritionFromText text).calories = 0) ∧
      (∀ z : Int, searchNumber text ["calories", "kalori", "kcal"] = some z →
        (extractNutritionFromText text).calories = z) ∧
      (searchNumber text ["protein", "protein_g", "proteingrams"] = none →
        (extractNutritionFromText text).protein = 0) ∧
      (∀ z : Int, searchNumber text ["protein", "protein_g", "proteingrams"] = some z →
        (extractNutritionFromText text).protein = z) ∧
      (searchNumber text ["carbs", "carbohydrate", "karbohidrat", "carbs_g"] = none →
        (extractNutritionFromText text).carbs = 0) ∧
      (∀ z : Int, searchNumber text ["carbs", "carbohydrate", "karbohidrat", "carbs_g"] = some z →
        (extractNutritionFromText text).carbs = z) ∧
      (searchNumber text ["fat", "lemak", "fat_g"] = none →
        (extractNutritionFromText text).fat = 0) ∧
      (∀ z : Int, searchNumber text ["fat", "lemak", "fat_g"] = some z →
        (extractNutritionFromText text).fat = z)) ∧
    extractNutritionFromText "Calories: 200, Protein: 20g, Carbs: 30g, Fat: 10g" =
      { calories := 200, protein := 20, carbs := 30, fat := 10, fiber := none } ∧
    extractNutritionFromText "Kalori: 200, Protein: 20g, Karbohidrat: 30g, Lemak: 10g" =
      { calories := 200, protein := 20, carbs := 30, fat := 10, fiber := none } ∧
    (extractNutritionFromText "200 kcal").calories = 200 := by
  refine ⟨?_, ?_, ?_, ?_⟩
  · intro text
    exact ⟨rfl,
      fun h => by simp [extractNutritionFromText, h],
      fun z h => by simp [extractNutritionFromText, h],
      fun h => by simp [extractNutritionFromText, h],
      fun z h => by simp [extractNutritionFromText, h],
      fun h => by simp [extractNutritionFromText, h],
      fun z h => by simp [extractNutritionFromText, h],
      fun h => by simp [extractNutritionFromText, h],
      fun z h => by simp [extractNutritionFromText, h]⟩
  · have hc : searchNumber "Calories: 200, Protein: 20g, Carbs: 30g, Fat: 10g"
        ["calories", "kalori", "kcal"] = some 200 :=
      searchNumber_key_eval _ _ ['2', '0', '0'] 200 (by decide)
        (parse_digits_eq _ ['2', '0', '0'] 200 (by decide) (by decide) (by decide))
    have hp : searchNumber "Calories: 200, Protein: 20g, Carbs: 30g, Fat: 10g"
        ["protein", "protein_g", "proteingrams"] = some 20 :=
      searchNumber_key_eval _ _ ['2', '0'] 20 (by decide)
        (parse_digits_eq _ ['2', '0'] 20 (by decide) (by decide) (by decide))
    have hb : searchNumber "Calories: 200, Protein: 20g, Carbs: 30g, Fat: 10g"
        ["carbs", "carbohydrate", "karbohidrat", "carbs_g"] = some 30 :=
      searchNumber_key_eval _ _ ['3', '0'] 30 (by decide)
        (parse_digits_eq _ ['3', '0'] 30 (by decide) (by decide) (by decide))
    have hf : searchNumber "Calories: 200, Protein: 20g, Carbs: 30g, Fat: 10g"
        ["fat", "lemak", "fat_g"] = some 10 :=
      searchNumber_key_eval _ _ ['1', '0'] 10 (by decide)
        (parse_digits_eq _ ['1', '0'] 10 (by decide) (by decide) (by decide))
    simp only [extractNutritionFromText, hc, hp, hb, hf, Option.getD_some]
  · have hc : searchNumber "Kalori: 200, Protein: 20g, Karbohidrat: 30g, Lemak: 10g"
        ["calories", "kalori", "kcal"] = some 200 :=
      searchNumber_key_eval _ _ ['2', '0', '0'] 200 (by decide)
        (parse_digits_eq _ ['2', '0', '0'] 200 (by decide) (by decide) (by decide))
    have hp : searchNumber "Kalori: 200, Protein: 20g, Karbohidrat: 30g, Lemak: 10g"
        ["protein", "protein_g", "proteingrams"] = some 20 :=
      searchNumber_key_eval _ _ ['2', '0'] 20 (by decide)
        (parse_digits_eq _ ['2', '0'] 20 (by decide) (by decide) (by decide))
    have hb : searchNumber "Kalori: 200, Protein: 20g, Karbohidrat: 30g, Lemak: 10g"
        ["carbs", "carbohydrate", "karbohidrat", "carbs_g"] = some 30 :=
      searchNumber_key_eval _ _ ['3', '0'] 30 (by decide)
        (parse_digits_eq _ ['3', '0'] 30 (by decide) (by decide) (by decide))
    have hf : searchNumber "Kalori: 200, Protein: 20g, Karbohidrat: 30g, Lemak: 10g"
        ["fat", "lemak", "fat_g"] = some 10 :=
      searchNumber_key_eval _ _ ['1', '0'] 10 (by decide)
        (parse_digits_eq _ ['1', '0'] 10 (by decide) (by decide) (by decide))
    simp only [extractNutritionFromText, hc, hp, hb, hf, Option.getD_some]
  · have hc : searchNumber "200 kcal" ["calories", "kalori", "kcal"] = some 200 :=
      searchNumber_unit_eval _ _ ['2', '0', '0'] 200 (by decide) (by decide)
        (parse_digits_eq _ ['2', '0', '0'] 200 (by decide) (by decide) (by decide))
    simp only [extractNutritionFromText, hc, Option.getD_some]

/-- Witness for C7 (amended): on a text mentioning no nutrient keyword at all,
the calories search fails and the field resolves to 0, and fiber is absent. -/
theorem extractNutritionFromText_four_nutrients_witness :
    (extractNutritionFromText "nothing here").calories = 0 ∧
    (extractNutritionFromText "nothing here").fiber = none :=
  ⟨(extractNutritionFromText_four_nutrients.1 "nothing here").2.1
      (searchNumber_none_eval _ _ (by decide) (by decide)),
   (extractNutritionFromText_four_nutrients.1 "nothing here").1⟩
